import Mathlib

/- Verification of the vkmemfd demo (main.c, renderer.c): a shallow embedding of
   the heap-layout negotiation, the control-channel protocol, the coherency
   emulation layer, and the renderer invocation token, with theorems about the
   properties the design documentation states for them. -/

namespace Vkmemfd

set_option maxRecDepth 8000

/-! ## Heap layout negotiation (renderer.c) -/

/-- The device-side answers consumed by renderer_get_heap_buffer_props
(renderer.c:260-312): whether the external handle type is importable for the
usage (VK_EXTERNAL_MEMORY_FEATURE_IMPORTABLE_BIT), whether it demands a
dedicated allocation (VK_EXTERNAL_MEMORY_FEATURE_DEDICATED_ONLY_BIT), and the
device-required allocation size (VkMemoryRequirements.size) for a buffer of
the nominal size. -/
structure ExtBufferQuery where
  importable : Bool
  dedicated_only : Bool
  req_size : Nat
deriving DecidableEq

/-- Slot-size computation of renderer_get_heap_buffer_props (renderer.c:260-312).
`size` is the nominal byte count passed in (renderer.c:282-288 creates the probe
buffer with it); `none` models the fatal paths (renderer.c:278-280 when not
importable, renderer.c:304-307 when a dedicated-only import meets a misaligned
device-required size).  Otherwise the returned allocation size follows
renderer.c:303-311: the remainder is taken from the device-required size
`query.req_size % mem_align`; when it is nonzero the device-required size is
rounded up to the next multiple of `mem_align`, and when it is zero the nominal
`size` is returned unchanged. -/
def renderer_get_heap_buffer_props (size : Nat) (query : ExtBufferQuery)
    (mem_align : Nat) : Option Nat :=
  if query.importable = false then none
  else if query.req_size % mem_align ≠ 0 then
    if query.dedicated_only = true then none
    else some (query.req_size - query.req_size % mem_align + mem_align)
  else some size

/-- The three negotiated layout values (struct renderer.heap_layout,
renderer.c:52-71), held in the renderer as VkDeviceSize (64-bit) quantities,
modelled as unbounded naturals. -/
structure HeapLayout where
  base_skip : Nat
  ubo_size : Nat
  output_size : Nat
deriving DecidableEq

/-- sizeof(float[4]), the nominal uniform-region size (renderer.c:434). -/
def ubo_used_size : Nat := 16

/-- The base_skip computation of renderer_init_heap_layout (renderer.c:406-423):
0 on the udmabuf path; on the host-pointer path, host_align minus the mapped
base's remainder when the base is misaligned, else 0. -/
def renderer_base_skip (use_udmabuf : Bool) (host_align heap_base : Nat) : Nat :=
  if use_udmabuf then 0
  else if heap_base % host_align ≠ 0 then host_align - heap_base % host_align
  else 0

/-- renderer_init_heap_layout (renderer.c:402-455).  Inputs that the real code
obtains from the platform are parameters: `page_size` (getpagesize()),
`host_align` (minImportedHostPointerAlignment), `heap_base` (the mmapped base
address), and the two device property queries.  On the udmabuf path the
alignment is the page size and base_skip is fixed to 0 (renderer.c:406-410);
on the host-pointer path base_skip is `host_align - heap_base % host_align`
when the base is misaligned, else 0 (renderer.c:420-423).  The two slot sizes
come from renderer_get_heap_buffer_props with nominal sizes sizeof(float[4])
and width*height*4 (renderer.c:434-450).  The final check (renderer.c:452-454)
aborts when ubo_size + output_size * output_count exceeds the heap size; note
the renderer-side check does not add base_skip. -/
def renderer_init_heap_layout (use_udmabuf : Bool)
    (page_size host_align heap_base : Nat)
    (width height output_count heap_size : Nat)
    (ubo_query output_query : ExtBufferQuery) : Option HeapLayout :=
  let mem_align := if use_udmabuf then page_size else host_align
  let base_skip := renderer_base_skip use_udmabuf host_align heap_base
  (renderer_get_heap_buffer_props ubo_used_size ubo_query mem_align).bind
    fun ubo_size =>
  (renderer_get_heap_buffer_props (width * height * 4) output_query
      mem_align).bind fun output_size =>
  if heap_size < ubo_size + output_size * output_count then none
  else some ⟨base_skip, ubo_size, output_size⟩

/-- The renderer-side total-size check alone (renderer.c:452-454); true means
the fatal "heap size too small" path is taken. -/
def renderer_heap_size_check (ubo_size output_size output_count heap_size : Nat) :
    Bool :=
  if heap_size < ubo_size + output_size * output_count then true else false

/-- The fatal outcomes of app_init_memories (main.c:179-184). -/
inductive AppFatal where
  | invalid_ubo_size
  | invalid_output_size
  | heap_size_too_small
deriving DecidableEq

/-- app_init_memories (main.c:161-185): the controller lays out its pointers at
heap_skip, then ubo_size, then output_count regions of output_size each, and
aborts when ubo_size < sizeof(float[4]), when output_size < img_size, or when
the end pointer heap_skip + ubo_size + output_count * output_size passes the
heap size.  `some` is the fatal taken (in source order), `none` is success. -/
def app_init_memories (heap_size img_size heap_skip ubo_size output_size
    output_count : Nat) : Option AppFatal :=
  if ubo_size < 16 then some AppFatal.invalid_ubo_size
  else if output_size < img_size then some AppFatal.invalid_output_size
  else if heap_size < heap_skip + ubo_size + output_count * output_size then
    some AppFatal.heap_size_too_small
  else none

/-- Modelled from the spec's formula (section 4.4): aligned_size(nominal, align)
adds align - (nominal mod align) to nominal when nominal mod align is nonzero,
else returns nominal.  Declared only to compare the documented formula with
what renderer_get_heap_buffer_props actually computes. -/
def aligned_size (nominal align : Nat) : Nat :=
  if nominal % align ≠ 0 then nominal + (align - nominal % align) else nominal

/-! ## Coherency emulation layer (main.c) -/

/-- One explicit cache-maintenance call: __builtin_ia32_clflush on a byte
address, or __builtin_ia32_mfence. -/
inductive CacheOp where
  | clflush (addr : Nat)
  | mfence
deriving DecidableEq

/-- The flush loop of app_present_frame (main.c:233-238): the addresses passed
to clflush, starting at `ptr` and advancing by 64 while below `endp`. -/
def clflush_sweep (ptr endp : Nat) : List Nat :=
  if h : ptr < endp then ptr :: clflush_sweep (ptr + 64) endp
  else []
termination_by endp - ptr
decreasing_by omega

/-- Cache-maintenance calls of app_render_frame (main.c:203-222): nothing when
the heap is assumed coherent; one mfence then one clflush of the ubo pointer
otherwise (main.c:214-217). -/
def app_render_frame_cache_ops (is_coherent : Bool) (ubo_addr : Nat) :
    List CacheOp :=
  if is_coherent then []
  else [CacheOp.mfence, CacheOp.clflush ubo_addr]

/-- Cache-maintenance calls of app_present_frame (main.c:224-252): nothing when
coherent; otherwise one clflush per 64-byte step across the img_size bytes of
the output region, followed by one mfence (main.c:232-240). -/
def app_present_frame_cache_ops (is_coherent : Bool) (output_ptr img_size : Nat) :
    List CacheOp :=
  if is_coherent then []
  else (clflush_sweep output_ptr (output_ptr + img_size)).map CacheOp.clflush
    ++ [CacheOp.mfence]

/-- Number of clflush calls in a trace of cache-maintenance operations. -/
def count_clflush (ops : List CacheOp) : Nat :=
  ops.countP fun op => match op with
    | CacheOp.clflush _ => true
    | CacheOp.mfence => false

/-- Number of mfence calls in a trace of cache-maintenance operations. -/
def count_mfence (ops : List CacheOp) : Nat :=
  ops.countP fun op => match op with
    | CacheOp.mfence => true
    | CacheOp.clflush _ => false

/-! ## Control channel wire format (renderer.c, main.c) -/

/-- Number of values representable in a uint32_t. -/
def uint32_size : Nat := 4294967296

/-- renderer_send (renderer.c:899-903) writes a uint32_t; a 64-bit VkDeviceSize
argument is converted to the parameter type, that is reduced modulo 2^32. -/
def renderer_send_val (val : Nat) : Nat := val % uint32_size

/-- The handshake messages, renderer to controller, in source order
(renderer.c:950-953): base_skip, then ubo_size, then output_size, each sent
through renderer_send as a uint32_t. -/
def renderer_send_layout (l : HeapLayout) : List Nat :=
  [renderer_send_val l.base_skip, renderer_send_val l.ubo_size,
    renderer_send_val l.output_size]

/-- The controller's handshake reads (main.c:367-371): the first three values
of the renderer-to-controller stream become heap_skip, ubo_size and output_size
in that order; fewer than three available blocks forever (modelled none). -/
def app_recv_layout : List Nat → Option (Nat × Nat × Nat)
  | heap_skip :: ubo_size :: output_size :: _ =>
    some (heap_skip, ubo_size, output_size)
  | _ => none

/-! ## Frame control protocol (renderer.c:919-926, main.c:203-284) -/

/-- renderer_mainloop (renderer.c:919-926): each iteration receives one value,
renders, and sends the very value back. -/
def renderer_mainloop_reply (req : Nat) : Nat := req

/-- The reply stream the renderer produces for a given request stream. -/
def renderer_mainloop_replies (reqs : List Nat) : List Nat :=
  reqs.map renderer_mainloop_reply

/-- The mismatch test of app_render_frame (main.c:220-221): true means the
controller hits the fatal "unexpected renderer output" path, which happens
exactly when the reply read differs from the request sent. -/
def app_render_frame_check (sent reply : Nat) : Bool :=
  if reply = sent then false else true

/-- Whether any frame of a run aborts: the controller compares each reply
against its own request (main.c:219-221). -/
def app_run_frames (reqs replies : List Nat) : Bool :=
  (reqs.zip replies).any fun p => app_render_frame_check p.1 p.2

/-- State of the controller main loop (main.c:258-260): the next output index,
the walking direction, and the colour channel. -/
structure AppLoopState where
  output : Int
  output_inc : Int
  channel : Int
deriving DecidableEq

/-- The per-iteration index update at the bottom of app_mainloop
(main.c:272-282). -/
def app_mainloop_step (output_count : Int) (s : AppLoopState) : AppLoopState :=
  let output := s.output + s.output_inc
  if output ≥ output_count then
    { output := output_count - 1, output_inc := -1, channel := s.channel }
  else if output < 0 then
    { output := 1, output_inc := 1, channel := (s.channel + 1) % 3 }
  else
    { output := output, output_inc := s.output_inc, channel := s.channel }

/-- The loop state at the start of iteration k, from the initial state
output = 0, output_inc = 1, channel = 0 (main.c:258-260) with the configured
output_count of 64 (main.c:300). -/
def app_loop_state : Nat → AppLoopState
  | 0 => { output := 0, output_inc := 1, channel := 0 }
  | k + 1 => app_mainloop_step 64 (app_loop_state k)

/-- The output index requested in iteration k of app_mainloop. -/
def app_output (k : Nat) : Int := (app_loop_state k).output

/-- The (output, output_inc) projection of one loop step; the channel field
never feeds back into the index walk. -/
def app_pstep (s : Int × Int) : Int × Int :=
  let output := s.1 + s.2
  if output ≥ 64 then (63, -1)
  else if output < 0 then (1, 1)
  else (output, s.2)

/-- The projected loop state at the start of iteration k. -/
def app_pstate : Nat → Int × Int
  | 0 => (0, 1)
  | k + 1 => app_pstep (app_pstate k)

/-- The ping-pong index pattern 0,1,...,63,63,62,...,0,1,2,... in closed form:
after the initial 0 the sequence is periodic with period 127. -/
def app_pingpong (k : Nat) : Nat :=
  if k = 0 then 0
  else if (k - 1) % 127 < 63 then (k - 1) % 127 + 1
  else 126 - (k - 1) % 127

/-- One event on the control-channel pair as seen from the controller. -/
inductive CtrlEvent where
  | send (i : Int)
  | recv (i : Int)
deriving DecidableEq

/-- Channel events of one app_render_frame call (main.c:219-220): send the
index, then block reading the reply. -/
def app_render_frame_events (output : Int) : List CtrlEvent :=
  [CtrlEvent.send output, CtrlEvent.recv output]

/-- Channel events of n consecutive loop iterations starting at iteration k. -/
def app_events_from (k : Nat) : Nat → List CtrlEvent
  | 0 => []
  | n + 1 =>
    app_render_frame_events (app_output k) ++ app_events_from (k + 1) n

/-- Channel events of the first n iterations of app_mainloop. -/
def app_mainloop_events (n : Nat) : List CtrlEvent :=
  app_events_from 0 n

/-- Strict request/reply alternation: the trace is a sequence of send;recv
pairs, so a second send never occurs before the previous recv. -/
def alternates : List CtrlEvent → Bool
  | [] => true
  | CtrlEvent.send _ :: CtrlEvent.recv _ :: rest => alternates rest
  | _ => false

/-! ## Renderer invocation token (main.c:116-131, main.c:327-358) -/

/-- The literal "renderer-" head of the token (main.c:118, main.c:328). -/
def renderer_tag : List Char :=
  ['r', 'e', 'n', 'd', 'e', 'r', 'e', 'r', '-']

/-- Decimal rendering of a natural number, fuel-driven so it is structurally
recursive; natDigits supplies enough fuel. -/
def natDigitsGo : Nat → Nat → List Char
  | 0, _ => []
  | fuel + 1, n =>
    if n < 10 then [Char.ofNat (48 + n)]
    else natDigitsGo fuel (n / 10) ++ [Char.ofNat (48 + n % 10)]

/-- The decimal digit characters of n, most significant first, as printf %d
renders a non-negative int. -/
def natDigits (n : Nat) : List Char := natDigitsGo (n + 1) n

/-- One %d conversion of sscanf on a non-negative input: consume a maximal
nonempty run of decimal digits and return its value with the rest of the
input; no digits means conversion failure. -/
def parseDecimal (cs : List Char) : Option (Nat × List Char) :=
  if (cs.takeWhile Char.isDigit).isEmpty then none
  else some ((cs.takeWhile Char.isDigit).foldl
      (fun acc c => acc * 10 + (c.toNat - 48)) 0,
    cs.drop (cs.takeWhile Char.isDigit).length)

/-- The literal '-' separators of the "%d-%d-%d" format. -/
def expectDash : List Char → Option (List Char)
  | c :: rest => if c = '-' then some rest else none
  | [] => none

/-- sscanf(arg + 9, "%d-%d-%d", ...) != 3 is fatal (main.c:330-334); `some`
returns the three parsed descriptor numbers. -/
def scan_renderer_args (cs : List Char) : Option (Nat × Nat × Nat) :=
  (parseDecimal cs).bind fun p1 =>
  (expectDash p1.2).bind fun r2 =>
  (parseDecimal r2).bind fun p2 =>
  (expectDash p2.2).bind fun r4 =>
  (parseDecimal r4).bind fun p3 =>
  some (p1.1, p2.1, p3.1)

/-- The characters snprintf would produce for
"renderer-<in-fd>-<out-fd>-<heap-fd>" (main.c:117-119), unbounded. -/
def renderer_token_chars (child_in child_out child_memfd : Nat) : List Char :=
  renderer_tag ++ (natDigits child_in ++
    ('-' :: (natDigits child_out ++ ('-' :: natDigits child_memfd))))

/-- app_init_renderer's formatting step (main.c:116-120): snprintf into a
32-byte buffer returns the untruncated length, and a return of 32 or more is
fatal; `none` models that abort, `some` the token handed to execv. -/
def format_renderer_token (child_in child_out child_memfd : Nat) :
    Option (List Char) :=
  if 32 ≤ (renderer_token_chars child_in child_out child_memfd).length then none
  else some (renderer_token_chars child_in child_out child_memfd)

/-- strncmp(argv[i], "renderer-", 9) == 0 (main.c:328), which flips main into
renderer mode by setting renderer_args.valid. -/
def main_arg_is_renderer (arg : List Char) : Bool :=
  if arg.take 9 = renderer_tag then true else false

/-- main's renderer-argument handling (main.c:327-334): a token with the
"renderer-" head selects renderer mode and the three descriptor numbers are
parsed from the characters after it. -/
def main_scan_renderer (arg : List Char) : Option (Nat × Nat × Nat) :=
  if arg.take 9 = renderer_tag then scan_renderer_args (arg.drop 9) else none

/-! ## Shared lemmas -/

/-- When renderer_get_heap_buffer_props succeeds, its result is either a
multiple of the alignment (the rounded-up branch) or the nominal size
unchanged (the branch where the device-required size is already aligned). -/
lemma get_props_mod (size : Nat) (query : ExtBufferQuery) (mem_align alloc : Nat)
    (h : renderer_get_heap_buffer_props size query mem_align = some alloc) :
    alloc % mem_align = 0 ∨ alloc = size := by
  unfold renderer_get_heap_buffer_props at h
  split_ifs at h with h1 h2 h3
  · left
    have halloc := Option.some.inj h
    have hdm := Nat.div_add_mod query.req_size mem_align
    have hsub : query.req_size - query.req_size % mem_align =
        mem_align * (query.req_size / mem_align) := by omega
    rw [← halloc, Nat.add_mod_right, hsub, Nat.mul_mod_right]
  · right
    exact (Option.some.inj h).symm

/-- On the udmabuf path base_skip is fixed to 0. -/
lemma renderer_base_skip_true (host_align heap_base : Nat) :
    renderer_base_skip true host_align heap_base = 0 := rfl

/-- On the host-pointer path base_skip equals
(align - base mod align) mod align. -/
lemma renderer_base_skip_false (host_align heap_base : Nat)
    (hh : 0 < host_align) :
    renderer_base_skip false host_align heap_base =
      (host_align - heap_base % host_align) % host_align := by
  unfold renderer_base_skip
  simp only [Bool.false_eq_true, if_false]
  split_ifs with hr
  · have := Nat.mod_lt heap_base hh
    exact (Nat.mod_eq_of_lt (by omega)).symm
  · simp only [not_not] at hr
    rw [hr, Nat.sub_zero, Nat.mod_self]

/-- base_skip is always below the alignment in force (page size on the udmabuf
path, the host-pointer alignment otherwise). -/
lemma renderer_base_skip_lt (use_udmabuf : Bool)
    (page_size host_align heap_base : Nat)
    (hp : 0 < page_size) (hh : 0 < host_align) :
    renderer_base_skip use_udmabuf host_align heap_base <
      (if use_udmabuf then page_size else host_align) := by
  cases use_udmabuf with
  | true => simpa [renderer_base_skip] using hp
  | false =>
    simp only [renderer_base_skip, Bool.false_eq_true, if_false]
    split_ifs with hr
    · have := Nat.mod_lt heap_base hh
      omega
    · exact hh

/-- No frame of a run aborts when every reply equals its request. -/
lemma app_run_frames_self (reqs : List Nat) : app_run_frames reqs reqs = false := by
  induction reqs with
  | nil => rfl
  | cons a t ih =>
    simpa [app_run_frames, app_render_frame_check] using ih

/-- A trace of clflush calls alone contains one clflush per address. -/
lemma count_clflush_map (xs : List Nat) :
    count_clflush (xs.map CacheOp.clflush) = xs.length := by
  unfold count_clflush
  induction xs with
  | nil => rfl
  | cons a t ih => simp [List.countP_cons, ih]

/-- A trace of clflush calls alone contains no mfence. -/
lemma count_mfence_map (xs : List Nat) :
    count_mfence (xs.map CacheOp.clflush) = 0 := by
  unfold count_mfence
  induction xs with
  | nil => rfl
  | cons a t ih => simp [List.countP_cons, ih]

/-- Length of the clflush sweep over n bytes: one call per started 64-byte
line. -/
lemma clflush_sweep_len (n : Nat) : ∀ ptr : Nat,
    (clflush_sweep ptr (ptr + n)).length = (n + 63) / 64 := by
  induction n using Nat.strong_induction_on with
  | _ n ih =>
    intro ptr
    unfold clflush_sweep
    by_cases h0 : 0 < n
    · rw [dif_pos (by omega)]
      by_cases h1 : n ≤ 64
      · have hinner : clflush_sweep (ptr + 64) (ptr + n) = [] := by
          unfold clflush_sweep
          rw [dif_neg (by omega)]
        rw [hinner]
        simp only [List.length_cons, List.length_nil]
        omega
      · have heq : ptr + n = ptr + 64 + (n - 64) := by omega
        rw [heq]
        simp only [List.length_cons]
        rw [ih (n - 64) (by omega) (ptr + 64)]
        omega
    · rw [dif_neg (by omega)]
      simp only [List.length_nil]
      omega

/-! ## Claims -/

/-- Claim C1, counterexample.  The claim says the negotiated slot size equals
aligned_size(nominal, align), the nominal size rounded up to the alignment.
On the code the remainder test uses the device-required size: with nominal 16,
device-required size 4096 and alignment 4096 the remainder is zero, so the
code returns the nominal 16 — but aligned_size(16, 4096) = 4096 (and reading
nominal as the device-required size gives aligned_size(4096, 4096) = 4096),
so the slot size 16 matches neither reading. -/
theorem C1_counterexample :
    renderer_get_heap_buffer_props 16 ⟨true, false, 4096⟩ 4096 = some 16 ∧
    aligned_size 16 4096 = 4096 ∧ (16 : Nat) ≠ 4096 ∧
    aligned_size 4096 4096 = 4096 := by decide

/-- Claim C1, amended: in the non-dedicated case the slot size equals
aligned_size(device_required_size, align) when the device-required size is not
a multiple of the alignment, and equals the nominal size unchanged when it is
(renderer.c:303-311). -/
theorem C1_slot_size (size : Nat) (query : ExtBufferQuery) (mem_align alloc : Nat)
    (hpos : 0 < mem_align)
    (h : renderer_get_heap_buffer_props size query mem_align = some alloc) :
    alloc = if query.req_size % mem_align ≠ 0 then
      aligned_size query.req_size mem_align else size := by
  have hlt : query.req_size % mem_align < mem_align := Nat.mod_lt _ hpos
  have hle : query.req_size % mem_align ≤ query.req_size := Nat.mod_le _ _
  unfold renderer_get_heap_buffer_props at h
  unfold aligned_size
  split_ifs at h ⊢ with h1 h2 h3 <;> simp_all <;> omega

/-- Claim C1, witness at nominal 16, device-required size 4100, alignment
4096. -/
theorem C1_slot_size_witness :
    (8192 : Nat) = if (4100 : Nat) % 4096 ≠ 0 then aligned_size 4100 4096
      else 16 :=
  C1_slot_size 16 ⟨true, false, 4100⟩ 4096 8192 (by decide) (by decide)

/-- Claim C2: for the slot sizes the negotiation actually produces (the
uniform slot is at least sizeof(float[4]) and the output slot at least the
image size), the combined renderer-side check (renderer.c:452-454) and
controller-side check (main.c:161-185) abort if and only if
base_skip + ubo_size + output_count * output_size exceeds the heap size; in
particular every accepted layout fits in the heap. -/
theorem C2_fatal_iff (heap_size img_size heap_skip ubo_size output_size
    output_count : Nat)
    (h1 : 16 ≤ ubo_size) (h2 : img_size ≤ output_size) :
    (renderer_heap_size_check ubo_size output_size output_count heap_size = true ∨
      (app_init_memories heap_size img_size heap_skip ubo_size output_size
        output_count).isSome = true)
    ↔ heap_size < heap_skip + ubo_size + output_count * output_size := by
  have hc : output_size * output_count = output_count * output_size :=
    Nat.mul_comm _ _
  unfold renderer_heap_size_check app_init_memories
  split_ifs with ha hb hc2 hd <;> simp_all <;> omega

/-- Claim C2, witness: a fitting layout with base_skip 1, uniform slot 16, two
output slots of 4 bytes in a 100-byte heap is accepted by both checks. -/
theorem C2_fatal_iff_witness :
    ((renderer_heap_size_check 16 4 2 100 = true ∨
      (app_init_memories 100 4 1 16 4 2).isSome = true) ↔
      (100 : Nat) < 1 + 16 + 2 * 4) :=
  C2_fatal_iff 100 4 1 16 4 2 (by decide) (by decide)

/-- Claim C3, counterexample.  With the host-pointer path, alignment 4096,
and a non-dedicated uniform buffer whose device-required size is 4096,
negotiation succeeds with uniform slot size 16, which is not a multiple of
the alignment even though the dedicated-allocation constraint is absent, so
the claimed disjunction (multiple of the alignment, or nominal exactly but
only under the dedicated constraint) fails. -/
theorem C3_counterexample :
    renderer_init_heap_layout false 4096 4096 0 2 2 1 64
      ⟨true, false, 4096⟩ ⟨true, false, 4096⟩ = some ⟨0, 16, 16⟩ ∧
    (16 : Nat) % 4096 ≠ 0 := by decide

/-- Claim C3, amended: on success base_skip < alignment, base_skip equals
(align - base mod align) mod align on the host-pointer path and 0 on the
udmabuf path, and each slot size is a multiple of the alignment or equals its
nominal size exactly — the latter whenever the device-required size is already
a multiple of the alignment, not only under the dedicated-allocation
constraint. -/
theorem C3_layout (use_udmabuf : Bool) (page_size host_align heap_base : Nat)
    (width height output_count heap_size : Nat)
    (ubo_query output_query : ExtBufferQuery) (l : HeapLayout)
    (hpage : 0 < page_size) (hhost : 0 < host_align)
    (h : renderer_init_heap_layout use_udmabuf page_size host_align heap_base
      width height output_count heap_size ubo_query output_query = some l) :
    l.base_skip < (if use_udmabuf then page_size else host_align) ∧
    (use_udmabuf = true → l.base_skip = 0) ∧
    (use_udmabuf = false →
      l.base_skip = (host_align - heap_base % host_align) % host_align) ∧
    (l.ubo_size % (if use_udmabuf then page_size else host_align) = 0 ∨
      l.ubo_size = ubo_used_size) ∧
    (l.output_size % (if use_udmabuf then page_size else host_align) = 0 ∨
      l.output_size = width * height * 4) := by
  simp only [renderer_init_heap_layout] at h
  cases hu : renderer_get_heap_buffer_props ubo_used_size ubo_query
      (if use_udmabuf then page_size else host_align) with
  | none => rw [hu] at h; cases h
  | some ubo =>
    cases ho : renderer_get_heap_buffer_props (width * height * 4) output_query
        (if use_udmabuf then page_size else host_align) with
    | none => rw [hu, ho] at h; cases h
    | some out =>
      rw [hu, ho] at h
      simp only [Option.some_bind] at h
      split_ifs at h with hh
      have hl := Option.some.inj h
      subst hl
      refine ⟨renderer_base_skip_lt _ _ _ _ hpage hhost, ?_, ?_,
        get_props_mod _ _ _ _ hu, get_props_mod _ _ _ _ ho⟩
      · intro hT
        subst hT
        rfl
      · intro hF
        subst hF
        exact renderer_base_skip_false host_align heap_base hhost

/-- Claim C3, witness: host-pointer path, alignment 4096, mapped base 1000,
uniform device-required size 4100 (rounded up to 8192), output nominal 16 with
device-required size 16 (rounded up to 4096), heap 16384 bytes. -/
theorem C3_layout_witness :
    ((3096 : Nat) < 4096 ∧
     ((false : Bool) = true → (3096 : Nat) = 0) ∧
     ((false : Bool) = false → (3096 : Nat) = (4096 - 1000 % 4096) % 4096) ∧
     ((8192 : Nat) % 4096 = 0 ∨ (8192 : Nat) = ubo_used_size) ∧
     ((4096 : Nat) % 4096 = 0 ∨ (4096 : Nat) = 2 * 2 * 4)) :=
  C3_layout false 4096 4096 1000 2 2 1 16384 ⟨true, false, 4100⟩
    ⟨true, false, 16⟩ ⟨3096, 8192, 4096⟩ (by decide) (by decide) (by decide)

/-- Claim C4: under the coherent assumption no cache-maintenance calls are
made; under the incoherent assumption each uniform write is followed by
exactly one clflush and one mfence, and each output read is preceded by
ceil(img_size / 64) clflush calls and one mfence. -/
theorem C4_cache_ops (ubo_addr output_ptr img_size : Nat) :
    app_render_frame_cache_ops true ubo_addr = [] ∧
    app_present_frame_cache_ops true output_ptr img_size = [] ∧
    count_clflush (app_render_frame_cache_ops false ubo_addr) = 1 ∧
    count_mfence (app_render_frame_cache_ops false ubo_addr) = 1 ∧
    count_clflush (app_present_frame_cache_ops false output_ptr img_size) =
      (img_size + 63) / 64 ∧
    count_mfence (app_present_frame_cache_ops false output_ptr img_size) = 1 := by
  have hform : app_present_frame_cache_ops false output_ptr img_size =
      (clflush_sweep output_ptr (output_ptr + img_size)).map CacheOp.clflush ++
        [CacheOp.mfence] := by
    simp [app_present_frame_cache_ops]
  refine ⟨rfl, rfl, rfl, rfl, ?_, ?_⟩
  · rw [hform]
    unfold count_clflush
    rw [List.countP_append]
    have hm := count_clflush_map (clflush_sweep output_ptr (output_ptr + img_size))
    unfold count_clflush at hm
    rw [hm, clflush_sweep_len img_size output_ptr]
    simp [List.countP_cons]
  · rw [hform]
    unfold count_mfence
    rw [List.countP_append]
    have hm := count_mfence_map (clflush_sweep output_ptr (output_ptr + img_size))
    unfold count_mfence at hm
    rw [hm]
    simp [List.countP_cons]

/-- Claim C5: the renderer echoes back exactly the index it received
(renderer.c:919-926), and the controller aborts if and only if the reply it
reads differs from the request it sent (main.c:219-221); on the echoed reply
the controller proceeds without error. -/
theorem C5_echo (sent reply : Nat) (reqs : List Nat) :
    renderer_mainloop_reply sent = sent ∧
    (app_render_frame_check sent reply = true ↔ reply ≠ sent) ∧
    renderer_mainloop_replies reqs = reqs ∧
    app_run_frames reqs (renderer_mainloop_replies reqs) = false := by
  have hmap : renderer_mainloop_replies reqs = reqs := by
    unfold renderer_mainloop_replies
    rw [show renderer_mainloop_reply = id from rfl, List.map_id]
  refine ⟨rfl, ?_, hmap, ?_⟩
  · unfold app_render_frame_check
    split_ifs with hx <;> simp [hx]
  · rw [hmap]
    exact app_run_frames_self reqs

/-- Claim C6: the handshake is exactly three 4-byte unsigned values, sent
renderer to controller in the order base_skip, ubo_size, output_size
(renderer.c:950-953), and the controller consumes the first three values of
the stream as heap_skip, ubo_size, output_size in that same order before any
frame traffic (main.c:367-371). -/
theorem C6_handshake (l : HeapLayout) (rest : List Nat) :
    (renderer_send_layout l).length = 3 ∧
    app_recv_layout (renderer_send_layout l ++ rest) =
      some (renderer_send_val l.base_skip, renderer_send_val l.ubo_size,
        renderer_send_val l.output_size) :=
  ⟨rfl, rfl⟩

/-- Claim C7, counterexample.  The claim says the dedicated case fails fatally
whenever the nominal size does not already satisfy the alignment.  With a
dedicated-only import, nominal size 16, alignment 4096 and device-required
size 4096, the nominal size is not a multiple of the alignment, yet the code
succeeds (returning 16) because its test uses the device-required size. -/
theorem C7_counterexample :
    renderer_get_heap_buffer_props 16 ⟨true, true, 4096⟩ 4096 = some 16 ∧
    (16 : Nat) % 4096 ≠ 0 := by decide

/-- Claim C7, amended: for an importable dedicated-only buffer, layout
computation fails fatally exactly when the device-required allocation size is
not a multiple of the alignment, and when it succeeds the slot size equals the
nominal size exactly — no padded slot is ever produced in the dedicated
case. -/
theorem C7_dedicated (size : Nat) (query : ExtBufferQuery) (mem_align : Nat)
    (him : query.importable = true) (hded : query.dedicated_only = true) :
    (renderer_get_heap_buffer_props size query mem_align = none ↔
      query.req_size % mem_align ≠ 0) ∧
    ∀ alloc, renderer_get_heap_buffer_props size query mem_align = some alloc →
      alloc = size := by
  unfold renderer_get_heap_buffer_props
  rw [him, hded]
  constructor
  · split_ifs with h1 h2 <;> simp_all
  · intro alloc halloc
    split_ifs at halloc with h1 h2 <;> simp_all

/-- Claim C7, witness: dedicated-only import with device-required size 8192
and alignment 4096 succeeds and returns the nominal 16 unpadded. -/
theorem C7_dedicated_witness :
    ((renderer_get_heap_buffer_props 16 ⟨true, true, 8192⟩ 4096 = none ↔
      (8192 : Nat) % 4096 ≠ 0) ∧
    ∀ alloc, renderer_get_heap_buffer_props 16 ⟨true, true, 8192⟩ 4096 =
      some alloc → alloc = 16) :=
  C7_dedicated 16 ⟨true, true, 8192⟩ 4096 rfl rfl

/-- Claim C10: the layout values are 64-bit in the renderer but cross the
channel as 4-byte unsigned integers, so a value of 2^32 or more is silently
reduced modulo 2^32; the controller's reads always succeed and hand it the
truncated triple with no error detected on either side. -/
theorem C10_truncation (v : Nat) (h : uint32_size ≤ v) :
    renderer_send_val v ≠ v ∧ renderer_send_val v < uint32_size ∧
    ∀ (l : HeapLayout) (rest : List Nat),
      app_recv_layout (renderer_send_layout l ++ rest) =
        some (renderer_send_val l.base_skip, renderer_send_val l.ubo_size,
          renderer_send_val l.output_size) := by
  refine ⟨?_, ?_, fun l rest => rfl⟩ <;>
    · simp only [renderer_send_val, uint32_size] at h ⊢
      omega

/-- Claim C10, witness at the smallest truncated value 2^32, transmitted
as 0. -/
theorem C10_truncation_witness :
    (renderer_send_val 4294967296 ≠ 4294967296 ∧
     renderer_send_val 4294967296 < uint32_size ∧
     ∀ (l : HeapLayout) (rest : List Nat),
       app_recv_layout (renderer_send_layout l ++ rest) =
         some (renderer_send_val l.base_skip, renderer_send_val l.ubo_size,
           renderer_send_val l.output_size)) :=
  C10_truncation 4294967296 (by norm_num [uint32_size])

/-! ## Frame-loop lemmas (claim C8) -/

/-- The index walk of app_mainloop is fully described by its (output,
output_inc) projection; the channel field never feeds back. -/
lemma app_loop_proj : ∀ k, (app_loop_state k).output = (app_pstate k).1 ∧
    (app_loop_state k).output_inc = (app_pstate k).2 := by
  intro k
  induction k with
  | zero => exact ⟨rfl, rfl⟩
  | succ k ih =>
    obtain ⟨h1, h2⟩ := ih
    simp only [app_loop_state, app_pstate, app_mainloop_step, app_pstep, h1, h2]
    split_ifs <;> exact ⟨rfl, rfl⟩

/-- After the transient initial state, the projected loop state is periodic
with period 127. -/
lemma app_pstate_period : ∀ k, 1 ≤ k → app_pstate (k + 127) = app_pstate k := by
  have hstep : ∀ j, app_pstate (j + 1) = app_pstep (app_pstate j) := fun j => rfl
  intro k
  induction k with
  | zero => intro hk; exact absurd hk (by omega)
  | succ k ih =>
    intro _
    by_cases h0 : k = 0
    · subst h0
      decide
    · have heq : k + 1 + 127 = k + 127 + 1 := by omega
      rw [heq, hstep (k + 127), hstep k, ih (by omega)]

/-- Multiples of the period can be stripped from the iteration count. -/
lemma app_pstate_reduce : ∀ q r : Nat,
    app_pstate (q * 127 + (r + 1)) = app_pstate (r + 1) := by
  intro q
  induction q with
  | zero => intro r; rw [Nat.zero_mul, Nat.zero_add]
  | succ q ih =>
    intro r
    have heq : (q + 1) * 127 + (r + 1) = q * 127 + (r + 1) + 127 := by ring
    rw [heq, app_pstate_period (q * 127 + (r + 1)) (by omega), ih]

/-- Within one period the projected output matches the closed-form ping-pong
pattern. -/
lemma app_pstate_vals : ∀ r : Nat, r < 127 →
    (app_pstate (r + 1)).1 = (app_pingpong (r + 1) : Int) := by decide

/-- The ping-pong pattern never reaches the output count 64. -/
lemma app_pingpong_lt (k : Nat) : app_pingpong k < 64 := by
  unfold app_pingpong
  split_ifs with h1 h2
  · omega
  · omega
  · have : (k - 1) % 127 < 127 := Nat.mod_lt _ (by omega)
    omega

/-- The requested output of every iteration follows the closed-form ping-pong
pattern. -/
lemma app_output_eq (k : Nat) : app_output k = (app_pingpong k : Int) := by
  unfold app_output
  rw [(app_loop_proj k).1]
  cases k with
  | zero => rfl
  | succ m =>
    have hr : m % 127 < 127 := Nat.mod_lt _ (by omega)
    have heq : m + 1 = m / 127 * 127 + (m % 127 + 1) := by omega
    have hL : app_pstate (m + 1) = app_pstate (m % 127 + 1) := by
      conv_lhs => rw [heq]
      exact app_pstate_reduce (m / 127) (m % 127)
    have hpp : app_pingpong (m + 1) = app_pingpong (m % 127 + 1) := by
      unfold app_pingpong
      rw [if_neg (show ¬(m + 1 = 0) by omega),
        if_neg (show ¬(m % 127 + 1 = 0) by omega)]
      have e1 : (m + 1 - 1) % 127 = m % 127 := by omega
      have e2 : (m % 127 + 1 - 1) % 127 = m % 127 := by omega
      rw [e1, e2]
    rw [hL, app_pstate_vals (m % 127) hr, hpp]

/-- Every prefix of the controller's channel trace strictly alternates send
and recv. -/
lemma app_events_alternate : ∀ n k, alternates (app_events_from k n) = true := by
  intro n
  induction n with
  | zero => intro k; rfl
  | succ n ih =>
    intro k
    show alternates (CtrlEvent.send (app_output k) ::
      CtrlEvent.recv (app_output k) :: app_events_from (k + 1) n) = true
    simp only [alternates]
    exact ih (k + 1)

/-- Claim C8: with output_count 64, every requested output index lies in
[0, 64); the issued sequence is the ping-pong pattern 0,1,...,63,63,62,...,
0,1,2,... (closed form app_pingpong); and the channel trace of every run
prefix is a strict alternation of send and recv, so at most one request is
ever in flight. -/
theorem C8_mainloop (k n : Nat) :
    0 ≤ app_output k ∧ app_output k < 64 ∧
    app_output k = (app_pingpong k : Int) ∧
    alternates (app_mainloop_events n) = true := by
  have hval := app_output_eq k
  have hlt := app_pingpong_lt k
  refine ⟨?_, ?_, hval, app_events_alternate n 0⟩
  · rw [hval]
    exact_mod_cast Nat.zero_le (app_pingpong k)
  · rw [hval]
    exact_mod_cast hlt

/-! ## Token lemmas (claim C9) -/

/-- natDigitsGo ignores the exact fuel as long as it exceeds the number. -/
lemma natDigitsGo_congr : ∀ n f₁ f₂ : Nat, n < f₁ → n < f₂ →
    natDigitsGo f₁ n = natDigitsGo f₂ n := by
  intro n
  induction n using Nat.strong_induction_on with
  | _ n ih =>
    intro f₁ f₂ h₁ h₂
    obtain ⟨g₁, rfl⟩ : ∃ g, f₁ = g + 1 := ⟨f₁ - 1, by omega⟩
    obtain ⟨g₂, rfl⟩ : ∃ g, f₂ = g + 1 := ⟨f₂ - 1, by omega⟩
    simp only [natDigitsGo]
    by_cases hn : n < 10
    · rw [if_pos hn, if_pos hn]
    · rw [if_neg hn, if_neg hn,
        ih (n / 10) (by omega) g₁ g₂ (by omega) (by omega)]

/-- The defining recursion of natDigits, freed of fuel. -/
lemma natDigits_step (n : Nat) : natDigits n =
    if n < 10 then [Char.ofNat (48 + n)]
    else natDigits (n / 10) ++ [Char.ofNat (48 + n % 10)] := by
  by_cases hn : n < 10
  · rw [if_pos hn]
    unfold natDigits
    simp only [natDigitsGo]
    rw [if_pos hn]
  · rw [if_neg hn]
    have h2 : natDigits n = natDigitsGo n (n / 10) ++ [Char.ofNat (48 + n % 10)] := by
      unfold natDigits
      simp only [natDigitsGo]
      rw [if_neg hn]
    rw [h2, natDigitsGo_congr (n / 10) n (n / 10 + 1) (by omega) (by omega)]
    rfl

/-- The character of a decimal digit is a digit character. -/
lemma digit_char_isDigit (d : Nat) (h : d < 10) :
    (Char.ofNat (48 + d)).isDigit = true := by
  interval_cases d <;> decide

/-- The character of a decimal digit decodes back to the digit. -/
lemma digit_char_toNat (d : Nat) (h : d < 10) :
    (Char.ofNat (48 + d)).toNat = 48 + d := by
  interval_cases d <;> decide

/-- All characters produced by natDigits are digit characters. -/
lemma natDigits_all (n : Nat) : ∀ c ∈ natDigits n, c.isDigit = true := by
  induction n using Nat.strong_induction_on with
  | _ n ih =>
    rw [natDigits_step]
    by_cases hn : n < 10
    · rw [if_pos hn]
      intro c hc
      simp only [List.mem_singleton] at hc
      subst hc
      exact digit_char_isDigit n hn
    · rw [if_neg hn]
      intro c hc
      rcases List.mem_append.mp hc with h1 | h2
      · exact ih (n / 10) (by omega) c h1
      · simp only [List.mem_singleton] at h2
        subst h2
        exact digit_char_isDigit (n % 10) (by omega)

/-- natDigits never produces an empty string. -/
lemma natDigits_ne_nil (n : Nat) : natDigits n ≠ [] := by
  rw [natDigits_step]
  split_ifs <;> simp

/-- Folding the decimal decoding step over natDigits recovers the number. -/
lemma natDigits_foldl (n : Nat) : ∀ acc : Nat,
    (natDigits n).foldl (fun acc c => acc * 10 + (c.toNat - 48)) acc =
      acc * 10 ^ (natDigits n).length + n := by
  induction n using Nat.strong_induction_on with
  | _ n ih =>
    intro acc
    rw [natDigits_step]
    by_cases hn : n < 10
    · rw [if_pos hn]
      simp only [List.foldl_cons, List.foldl_nil, List.length_cons,
        List.length_nil, Nat.zero_add, pow_one]
      rw [digit_char_toNat n hn]
      omega
    · rw [if_neg hn]
      rw [List.foldl_append]
      rw [ih (n / 10) (by omega) acc]
      simp only [List.foldl_cons, List.foldl_nil, List.length_append,
        List.length_cons, List.length_nil, Nat.zero_add]
      rw [digit_char_toNat (n % 10) (by omega)]
      have h1 : 48 + n % 10 - 48 = n % 10 := by omega
      have h3 : n / 10 * 10 + n % 10 = n := by omega
      rw [h1]
      calc (acc * 10 ^ (natDigits (n / 10)).length + n / 10) * 10 + n % 10
          = acc * (10 ^ (natDigits (n / 10)).length * 10) +
              (n / 10 * 10 + n % 10) := by ring
        _ = acc * 10 ^ ((natDigits (n / 10)).length + 1) + n := by
            rw [h3, ← pow_succ]

/-- takeWhile stops exactly at the end of an all-true block when the next
character fails the test. -/
lemma takeWhile_all_append (p : Char → Bool) :
    ∀ (xs rest : List Char), (∀ c ∈ xs, p c = true) →
      (∀ c, rest.head? = some c → p c = false) →
      (xs ++ rest).takeWhile p = xs := by
  intro xs
  induction xs with
  | nil =>
    intro rest _ hrest
    cases rest with
    | nil => rfl
    | cons r t =>
      simp only [List.nil_append, List.takeWhile_cons, hrest r rfl,
        Bool.false_eq_true, if_false]
  | cons x xs ih =>
    intro rest hall hrest
    simp only [List.cons_append, List.takeWhile_cons, hall x (by simp),
      if_true]
    rw [ih rest (fun c hc => hall c (by simp [hc])) hrest]

/-- parseDecimal applied to a rendered number followed by a non-digit (or
nothing) returns the number and the rest. -/
lemma parseDecimal_natDigits (n : Nat) (rest : List Char)
    (hrest : ∀ c, rest.head? = some c → c.isDigit = false) :
    parseDecimal (natDigits n ++ rest) = some (n, rest) := by
  have htake : (natDigits n ++ rest).takeWhile Char.isDigit = natDigits n :=
    takeWhile_all_append Char.isDigit (natDigits n) rest (natDigits_all n) hrest
  unfold parseDecimal
  rw [htake]
  rw [if_neg (by simp [natDigits_ne_nil n])]
  rw [natDigits_foldl n 0, List.drop_left]
  simp

/-- expectDash consumes exactly one '-' separator. -/
lemma expectDash_cons (l : List Char) : expectDash ('-' :: l) = some l := by
  simp [expectDash]

/-- The "%d-%d-%d" scan recovers the three rendered numbers. -/
lemma scan_args_roundtrip (a b c : Nat) :
    scan_renderer_args (natDigits a ++
      ('-' :: (natDigits b ++ ('-' :: natDigits c)))) = some (a, b, c) := by
  have hdash : ∀ (x : Char) (l : List Char), (x :: l).head? = some x :=
    fun x l => rfl
  have hhead1 : ∀ x : Char,
      (('-' : Char) :: (natDigits b ++ ('-' :: natDigits c))).head? = some x →
        x.isDigit = false := by
    intro x hx
    simp only [List.head?_cons, Option.some.injEq] at hx
    subst hx
    decide
  have hhead2 : ∀ x : Char,
      (('-' : Char) :: natDigits c).head? = some x → x.isDigit = false := by
    intro x hx
    simp only [List.head?_cons, Option.some.injEq] at hx
    subst hx
    decide
  have hnil : ∀ x : Char, ([] : List Char).head? = some x →
      x.isDigit = false := by
    intro x hx
    simp at hx
  unfold scan_renderer_args
  rw [parseDecimal_natDigits a _ hhead1, Option.some_bind]
  dsimp only
  rw [expectDash_cons, Option.some_bind]
  rw [parseDecimal_natDigits b _ hhead2, Option.some_bind]
  dsimp only
  rw [expectDash_cons, Option.some_bind]
  rw [show natDigits c = natDigits c ++ ([] : List Char) from
    (List.append_nil _).symm, parseDecimal_natDigits c [] hnil,
    Option.some_bind]

/-- Claim C9: for non-negative descriptor numbers whose formatted token
"renderer-<in>-<out>-<heap>" fits the 32-byte buffer, the controller's
snprintf produces the token, and main recognizes it (selecting renderer mode)
and parses back exactly the same three descriptor numbers; when the token
does not fit the formatting step aborts fatally. -/
theorem C9_roundtrip (child_in child_out child_memfd : Nat)
    (hfit : (renderer_token_chars child_in child_out child_memfd).length < 32) :
    format_renderer_token child_in child_out child_memfd =
      some (renderer_token_chars child_in child_out child_memfd) ∧
    main_arg_is_renderer (renderer_token_chars child_in child_out child_memfd) =
      true ∧
    main_scan_renderer (renderer_token_chars child_in child_out child_memfd) =
      some (child_in, child_out, child_memfd) ∧
    ∀ a b c : Nat, 32 ≤ (renderer_token_chars a b c).length →
      format_renderer_token a b c = none := by
  have htake : (renderer_token_chars child_in child_out child_memfd).take 9 =
      renderer_tag := by
    unfold renderer_token_chars
    rw [show (9 : Nat) = renderer_tag.length from rfl, List.take_left]
  have hdrop : (renderer_token_chars child_in child_out child_memfd).drop 9 =
      natDigits child_in ++
        ('-' :: (natDigits child_out ++ ('-' :: natDigits child_memfd))) := by
    unfold renderer_token_chars
    rw [show (9 : Nat) = renderer_tag.length from rfl, List.drop_left]
  refine ⟨?_, ?_, ?_, ?_⟩
  · unfold format_renderer_token
    rw [if_neg (by omega)]
  · unfold main_arg_is_renderer
    rw [htake, if_pos rfl]
  · unfold main_scan_renderer
    rw [htake, if_pos rfl, hdrop]
    exact scan_args_roundtrip child_in child_out child_memfd
  · intro a b c hab
    unfold format_renderer_token
    rw [if_pos hab]

/-- Claim C9, witness at descriptors (3, 4, 5), whose token
"renderer-3-4-5" is 14 characters. -/
theorem C9_roundtrip_witness :
    (format_renderer_token 3 4 5 = some (renderer_token_chars 3 4 5) ∧
     main_arg_is_renderer (renderer_token_chars 3 4 5) = true ∧
     main_scan_renderer (renderer_token_chars 3 4 5) = some (3, 4, 5) ∧
     ∀ a b c : Nat, 32 ≤ (renderer_token_chars a b c).length →
       format_renderer_token a b c = none) :=
  C9_roundtrip 3 4 5 (by decide)

end Vkmemfd
